import Mathlib

/-!
# Verification of the Mergington High School activities API

Shallow embedding of `src/app.py`: a FastAPI service with two ORM tables
(Activity, Participant), a startup seed loader, and four endpoints
(root redirect, list activities, signup, unregister).  The database state is
modelled as two lists of rows in insertion order; each endpoint becomes a pure
function from state to (response, new state).
-/

namespace Mergington

/-- Modelled from the spec: the `Activity` ORM model lives in `src/models.py`,
which is not included in the sources; per the spec it has a unique `name`,
`description`, `schedule` and a non-negative `max_participants` (0 meaning
unlimited), plus an integer primary key `id`. -/
structure Activity where
  id : Nat
  name : String
  description : String
  schedule : String
  max_participants : Nat
deriving DecidableEq, Repr

/-- Modelled from the spec: the `Participant` ORM model lives in
`src/models.py`, not included in the sources; per the spec it has an `email`
and a foreign key `activity_id` referencing one Activity, with a uniqueness
constraint on the pair `(activity_id, email)`. -/
structure Participant where
  email : String
  activity_id : Nat
deriving DecidableEq, Repr

/-- The persisted state: the two relational tables, rows in insertion order. -/
structure DB where
  activities : List Activity
  participants : List Participant
deriving DecidableEq, Repr

def emptyDB : DB := ⟨[], []⟩

/-- Outcome of a request handler: a success payload, an `HTTPException`
with status code and detail string, or a non-HTTP exception propagating out
of the handler (the bare `raise` after rollback). -/
inductive Resp where
  | ok (message : String)
  | err (status : Nat) (detail : String)
  | raised
deriving DecidableEq, Repr

/-- `db.query(Activity).filter(Activity.name == activity_name).first()`
(app.py line 136 and 169): first stored activity with the given name. -/
def findActivity (db : DB) (activity_name : String) : Option Activity :=
  db.activities.find? (fun a => a.name == activity_name)

/-- `db.query(Participant).filter(activity_id == aid).count()`
(app.py line 149): number of participant rows bound to activity `aid`. -/
def countParticipants (db : DB) (aid : Nat) : Nat :=
  (db.participants.filter (fun p => p.activity_id == aid)).length

/-- `[p.email for p in a.participants]` (app.py line 128): the emails of the
participant rows bound to activity `aid`, in insertion order. -/
def participantEmails (db : DB) (aid : Nat) : List String :=
  (db.participants.filter (fun p => p.activity_id == aid)).map (fun p => p.email)

/-- One entry of the `GET /activities` response (app.py lines 124-129). -/
structure ActivityView where
  description : String
  schedule : String
  max_participants : Nat
  participants : List String
deriving DecidableEq, Repr

/-- `get_activities` (app.py lines 119-130): maps each stored activity name to
its description, schedule, capacity and participant email list. -/
def get_activities (db : DB) : List (String × ActivityView) :=
  db.activities.map (fun a =>
    (a.name, ⟨a.description, a.schedule, a.max_participants, participantEmails db a.id⟩))

/-- Result of `db.commit()` on the pending participant insert: success, an
`IntegrityError`, or any other persistence exception. -/
inductive CommitResult where
  | ok
  | integrityError
  | otherError
deriving DecidableEq, Repr

/-- Modelled from the spec: whether committing the insert of `p` violates the
uniqueness constraint on `(activity_id, email)` declared in `src/models.py`
(not included in the sources); the spec states the store enforces
"a uniqueness constraint on (activity_id, email)". -/
def uniqueViolation (db : DB) (p : Participant) : Bool :=
  db.participants.any (fun q => q.activity_id == p.activity_id && q.email == p.email)

/-- Commit of the pending insert: raises `IntegrityError` exactly when the
uniqueness constraint is violated (no other persistence failures occur in the
sequential model). -/
def commitParticipant (db : DB) (p : Participant) : CommitResult :=
  if uniqueViolation db p then .integrityError else .ok

/-- The `try/except` block of `signup_for_activity` (app.py lines 152-161):
on success the row is inserted and the confirmation message returned; on
`IntegrityError` the transaction is rolled back and a 400 "already signed up
or constraint violation" error is raised; on any other exception the
transaction is rolled back and the exception re-raised. -/
def signupFinish (db : DB) (activity_name email : String) (aid : Nat) :
    CommitResult → Resp × DB
  | .ok =>
      (.ok ("Signed up " ++ email ++ " for " ++ activity_name),
       { db with participants := db.participants ++ [⟨email, aid⟩] })
  | .integrityError =>
      (.err 400 "Student is already signed up or constraint violation", db)
  | .otherError => (.raised, db)

/-- `signup_for_activity` (app.py lines 133-163): 404 if the activity does not
exist; 400 "already signed up" if a matching participant row exists; 400
"at capacity" if `max_participants` is nonzero and the current count is not
below it; otherwise insert the row and commit. -/
def signup_for_activity (db : DB) (activity_name email : String) : Resp × DB :=
  match findActivity db activity_name with
  | none => (.err 404 "Activity not found", db)
  | some activity =>
    match db.participants.find?
        (fun p => p.activity_id == activity.id && p.email == email) with
    | some _ => (.err 400 "Student is already signed up", db)
    | none =>
      if activity.max_participants ≠ 0 ∧
          countParticipants db activity.id ≥ activity.max_participants then
        (.err 400 "Activity is at capacity", db)
      else
        signupFinish db activity_name email activity.id
          (commitParticipant db ⟨email, activity.id⟩)

/-- `unregister_from_activity` (app.py lines 166-187): 404 if the activity does
not exist; 400 "not signed up" if no matching participant row exists;
otherwise delete the row found by `first()` and commit. -/
def unregister_from_activity (db : DB) (activity_name email : String) : Resp × DB :=
  match findActivity db activity_name with
  | none => (.err 404 "Activity not found", db)
  | some activity =>
    match db.participants.find?
        (fun p => p.activity_id == activity.id && p.email == email) with
    | none => (.err 400 "Student is not signed up for this activity", db)
    | some _ =>
      (.ok ("Unregistered " ++ email ++ " from " ++ activity_name),
       { db with participants :=
          (db.participants.eraseP
            (fun p => p.activity_id == activity.id && p.email == email)) })

/-- `SEED_ACTIVITIES` (app.py lines 29-84): name, description, schedule,
max_participants, initial participant emails, in the dictionary's insertion
order. -/
def SEED_ACTIVITIES : List (String × String × String × Nat × List String) :=
  [ ("Chess Club", "Learn strategies and compete in chess tournaments",
     "Fridays, 3:30 PM - 5:00 PM", 12,
     ["michael@mergington.edu", "daniel@mergington.edu"]),
    ("Programming Class", "Learn programming fundamentals and build software projects",
     "Tuesdays and Thursdays, 3:30 PM - 4:30 PM", 20,
     ["emma@mergington.edu", "sophia@mergington.edu"]),
    ("Gym Class", "Physical education and sports activities",
     "Mondays, Wednesdays, Fridays, 2:00 PM - 3:00 PM", 30,
     ["john@mergington.edu", "olivia@mergington.edu"]),
    ("Soccer Team", "Join the school soccer team and compete in matches",
     "Tuesdays and Thursdays, 4:00 PM - 5:30 PM", 22,
     ["liam@mergington.edu", "noah@mergington.edu"]),
    ("Basketball Team", "Practice and play basketball with the school team",
     "Wednesdays and Fridays, 3:30 PM - 5:00 PM", 15,
     ["ava@mergington.edu", "mia@mergington.edu"]),
    ("Art Club", "Explore your creativity through painting and drawing",
     "Thursdays, 3:30 PM - 5:00 PM", 15,
     ["amelia@mergington.edu", "harper@mergington.edu"]),
    ("Drama Club", "Act, direct, and produce plays and performances",
     "Mondays and Wednesdays, 4:00 PM - 5:30 PM", 20,
     ["ella@mergington.edu", "scarlett@mergington.edu"]),
    ("Math Club", "Solve challenging problems and participate in math competitions",
     "Tuesdays, 3:30 PM - 4:30 PM", 10,
     ["james@mergington.edu", "benjamin@mergington.edu"]),
    ("Debate Team", "Develop public speaking and argumentation skills",
     "Fridays, 4:00 PM - 5:30 PM", 12,
     ["charlotte@mergington.edu", "henry@mergington.edu"]) ]

/-- Insertion loop of the seed loader (app.py lines 97-108): each activity gets
the next autoincrement id (`db.flush()` makes it available), and its initial
participants reference that id. -/
def seedInsert : Nat → List (String × String × String × Nat × List String) →
    List Activity × List Participant
  | _, [] => ([], [])
  | nextId, (n, d, s, m, emails) :: rest =>
    let (as, ps) := seedInsert (nextId + 1) rest
    (⟨nextId, n, d, s, m⟩ :: as, emails.map (fun e => ⟨e, nextId⟩) ++ ps)

/-- `startup_event` (app.py lines 87-111): seeds the catalog only when
`db.query(Activity).count() == 0`; otherwise performs no writes. -/
def startup_event (db : DB) : DB :=
  if db.activities.length == 0 then
    let (as, ps) := seedInsert 1 SEED_ACTIVITIES
    { activities := db.activities ++ as, participants := db.participants ++ ps }
  else db

/-- `root` (app.py lines 114-116): returns
`RedirectResponse(url="/static/index.html")`; Starlette's `RedirectResponse`
defaults to status code 307 when none is given. No state is touched. -/
def root (db : DB) : (Nat × String) × DB :=
  ((307, "/static/index.html"), db)

/-- A client-visible operation on the store (the two mutating endpoints). -/
inductive Op where
  | signup (activity_name email : String)
  | unregister (activity_name email : String)
deriving DecidableEq, Repr

def applyOp (db : DB) : Op → DB
  | .signup a e => (signup_for_activity db a e).2
  | .unregister a e => (unregister_from_activity db a e).2

def applyOps (db : DB) (ops : List Op) : DB := ops.foldl applyOp db

/-- The capacity invariant of the spec: every activity with nonzero
`max_participants` has at most that many participant rows. -/
def CapacityInv (db : DB) : Prop :=
  ∀ a ∈ db.activities, a.max_participants ≠ 0 →
    countParticipants db a.id ≤ a.max_participants

/-- Well-formedness the primary key guarantees: activity ids identify rows. -/
def IdsInj (db : DB) : Prop :=
  ∀ a ∈ db.activities, ∀ b ∈ db.activities, a.id = b.id → a = b

instance (db : DB) : Decidable (CapacityInv db) := by
  unfold CapacityInv; infer_instance

instance (db : DB) : Decidable (IdsInj db) := by
  unfold IdsInj; infer_instance

/-- Sample fixture: an activity with capacity 2. -/
def sampleAct : Activity :=
  { id := 1, name := "A", description := "d", schedule := "s", max_participants := 2 }

/-- Sample fixture: an activity with capacity 0 (unlimited). -/
def sampleActUnlimited : Activity :=
  { id := 1, name := "A", description := "d", schedule := "s", max_participants := 0 }

/-- Sample fixture: `sampleAct` at capacity (2 of 2 seats taken). -/
def sampleDBFull : DB :=
  { activities := [sampleAct],
    participants := [⟨"a@x", 1⟩, ⟨"b@x", 1⟩] }

/-- Sample fixture: `sampleAct` with one free seat. -/
def sampleDBOne : DB :=
  { activities := [sampleAct], participants := [⟨"a@x", 1⟩] }

/-- Sample fixture: an unlimited activity that already has two participants. -/
def sampleDBUnlimited : DB :=
  { activities := [sampleActUnlimited],
    participants := [⟨"a@x", 1⟩, ⟨"b@x", 1⟩] }

/-! ## Helper lemmas about the embedded operations -/

/-- If no participant row matches `(aid, em)`, the lookup query returns `none`. -/
theorem find?_row_eq_none {ps : List Participant} {aid : Nat} {em : String}
    (h : ∀ p ∈ ps, ¬(p.activity_id = aid ∧ p.email = em)) :
    ps.find? (fun p => p.activity_id == aid && p.email == em) = none := by
  rw [List.find?_eq_none]
  intro p hp
  simpa [Bool.and_eq_true, beq_iff_eq] using h p hp

/-- If some participant row matches `(aid, em)`, the lookup query is not `none`. -/
theorem find?_row_ne_none {ps : List Participant} {aid : Nat} {em : String}
    (h : ∃ p ∈ ps, p.activity_id = aid ∧ p.email = em) :
    ps.find? (fun p => p.activity_id == aid && p.email == em) ≠ none := by
  obtain ⟨p, hp, h1, h2⟩ := h
  intro hn
  rw [List.find?_eq_none] at hn
  exact hn p hp (by simp [h1, h2])

/-- With no matching row present, inserting `(aid, em)` cannot violate the
uniqueness constraint. -/
theorem uniqueViolation_eq_false {db : DB} {aid : Nat} {em : String}
    (h : ∀ p ∈ db.participants, ¬(p.activity_id = aid ∧ p.email = em)) :
    uniqueViolation db ⟨em, aid⟩ = false := by
  unfold uniqueViolation
  rw [List.any_eq_false]
  intro p hp
  simpa [Bool.and_eq_true, beq_iff_eq] using h p hp

/-- Signup branch: unknown activity. -/
theorem signup_of_unknown {db : DB} {an em : String}
    (h : findActivity db an = none) :
    signup_for_activity db an em = (.err 404 "Activity not found", db) := by
  unfold signup_for_activity
  rw [h]

/-- Signup branch: duplicate registration. -/
theorem signup_of_duplicate {db : DB} {an em : String} {act : Activity}
    (h1 : findActivity db an = some act)
    (h2 : ∃ p ∈ db.participants, p.activity_id = act.id ∧ p.email = em) :
    signup_for_activity db an em = (.err 400 "Student is already signed up", db) := by
  rcases hf : db.participants.find? (fun p => p.activity_id == act.id && p.email == em)
    with _ | p
  · exact absurd hf (find?_row_ne_none h2)
  · simp only [signup_for_activity, h1, hf]

/-- Signup branch: capacity rejection. -/
theorem signup_of_at_capacity {db : DB} {an em : String} {act : Activity}
    (h1 : findActivity db an = some act)
    (h2 : ∀ p ∈ db.participants, ¬(p.activity_id = act.id ∧ p.email = em))
    (h3 : act.max_participants ≠ 0)
    (h4 : countParticipants db act.id ≥ act.max_participants) :
    signup_for_activity db an em = (.err 400 "Activity is at capacity", db) := by
  simp only [signup_for_activity, h1, find?_row_eq_none h2]
  rw [if_pos ⟨h3, h4⟩]

/-- Signup branch: success, appending the new row. -/
theorem signup_of_success {db : DB} {an em : String} {act : Activity}
    (h1 : findActivity db an = some act)
    (h2 : ∀ p ∈ db.participants, ¬(p.activity_id = act.id ∧ p.email = em))
    (h3 : act.max_participants = 0 ∨ countParticipants db act.id < act.max_participants) :
    signup_for_activity db an em =
      (.ok ("Signed up " ++ em ++ " for " ++ an),
       { db with participants := db.participants ++ [⟨em, act.id⟩] }) := by
  have hguard : ¬(act.max_participants ≠ 0 ∧
      countParticipants db act.id ≥ act.max_participants) := by
    rcases h3 with h | h
    · exact fun hc => hc.1 h
    · exact fun hc => absurd h (not_lt.mpr hc.2)
  have hcommit : commitParticipant db ⟨em, act.id⟩ = .ok := by
    unfold commitParticipant
    rw [uniqueViolation_eq_false h2]
    rfl
  simp only [signup_for_activity, h1, find?_row_eq_none h2, if_neg hguard, hcommit]
  rfl

/-- Unregister branch: unknown activity. -/
theorem unregister_of_unknown {db : DB} {an em : String}
    (h : findActivity db an = none) :
    unregister_from_activity db an em = (.err 404 "Activity not found", db) := by
  unfold unregister_from_activity
  rw [h]

/-- Unregister branch: no matching registration. -/
theorem unregister_of_missing {db : DB} {an em : String} {act : Activity}
    (h1 : findActivity db an = some act)
    (h2 : ∀ p ∈ db.participants, ¬(p.activity_id = act.id ∧ p.email = em)) :
    unregister_from_activity db an em =
      (.err 400 "Student is not signed up for this activity", db) := by
  simp only [unregister_from_activity, h1, find?_row_eq_none h2]

/-- Unregister branch: matching row found, erased from the table. -/
theorem unregister_found_state {db : DB} {an em : String} {act : Activity} {p : Participant}
    (h1 : findActivity db an = some act)
    (hf : db.participants.find? (fun q => q.activity_id == act.id && q.email == em) = some p) :
    unregister_from_activity db an em =
      (.ok ("Unregistered " ++ em ++ " from " ++ an),
       { db with participants :=
          (db.participants.eraseP (fun q => q.activity_id == act.id && q.email == em)) }) := by
  simp only [unregister_from_activity, h1, hf]

/-- Appending one participant row raises exactly the count of its activity by one. -/
theorem countParticipants_append_one (db : DB) (x : Participant) (aid : Nat) :
    countParticipants { db with participants := db.participants ++ [x] } aid =
      countParticipants db aid + (if x.activity_id = aid then 1 else 0) := by
  by_cases h : x.activity_id = aid
  · simp [countParticipants, List.filter_append, List.filter, h]
  · have hb : (x.activity_id == aid) = false := by simp [h]
    simp [countParticipants, List.filter_append, List.filter, h, hb]

/-- Erasing rows never increases a participant count. -/
theorem countParticipants_eraseP_le (db : DB) (q : Participant → Bool) (aid : Nat) :
    countParticipants { db with participants := (db.participants.eraseP q) } aid ≤
      countParticipants db aid :=
  List.Sublist.length_le (List.Sublist.filter _ (List.eraseP_sublist _))

/-- Signup never modifies the activities table. -/
theorem signup_activities_eq (db : DB) (an em : String) :
    ((signup_for_activity db an em).2).activities = db.activities := by
  rcases hA : findActivity db an with _ | act
  · simp [signup_for_activity, hA]
  · rcases hf : db.participants.find? (fun q => q.activity_id == act.id && q.email == em)
      with _ | p
    · by_cases hg : act.max_participants ≠ 0 ∧
        countParticipants db act.id ≥ act.max_participants
      · simp [signup_for_activity, hA, hf, hg]
      · simp only [signup_for_activity, hA, hf, if_neg hg]
        cases commitParticipant db ⟨em, act.id⟩ <;> rfl
    · simp [signup_for_activity, hA, hf]

/-- Unregister never modifies the activities table. -/
theorem unregister_activities_eq (db : DB) (an em : String) :
    ((unregister_from_activity db an em).2).activities = db.activities := by
  rcases hA : findActivity db an with _ | act
  · simp [unregister_from_activity, hA]
  · rcases hf : db.participants.find? (fun q => q.activity_id == act.id && q.email == em)
      with _ | p
    · simp [unregister_from_activity, hA, hf]
    · simp [unregister_from_activity, hA, hf]

/-- Signup preserves injectivity of activity ids. -/
theorem idsInj_signup (db : DB) (an em : String) (hI : IdsInj db) :
    IdsInj ((signup_for_activity db an em).2) := by
  unfold IdsInj
  rw [signup_activities_eq]
  exact hI

/-- Unregister preserves injectivity of activity ids. -/
theorem idsInj_unregister (db : DB) (an em : String) (hI : IdsInj db) :
    IdsInj ((unregister_from_activity db an em).2) := by
  unfold IdsInj
  rw [unregister_activities_eq]
  exact hI

/-- Signup preserves the capacity invariant. -/
theorem capacityInv_signup (db : DB) (an em : String)
    (hI : IdsInj db) (hC : CapacityInv db) :
    CapacityInv ((signup_for_activity db an em).2) := by
  rcases hA : findActivity db an with _ | act
  · rw [signup_of_unknown hA]; exact hC
  · rcases hf : db.participants.find? (fun q => q.activity_id == act.id && q.email == em)
      with _ | p
    · by_cases hg : act.max_participants ≠ 0 ∧
        countParticipants db act.id ≥ act.max_participants
      · have hst : (signup_for_activity db an em).2 = db := by
          simp [signup_for_activity, hA, hf, hg]
        rw [hst]; exact hC
      · have hrow : ∀ q ∈ db.participants, ¬(q.activity_id = act.id ∧ q.email = em) := by
          rw [List.find?_eq_none] at hf
          intro q hq hcon
          exact hf q hq (by simp [hcon.1, hcon.2])
        have hcap : act.max_participants = 0 ∨
            countParticipants db act.id < act.max_participants := by
          rcases Decidable.em (act.max_participants = 0) with h0 | h0
          · exact Or.inl h0
          · right
            by_contra hlt
            exact hg ⟨h0, not_lt.mp hlt⟩
        rw [signup_of_success hA hrow hcap]
        intro b hb hm
        have hb' : b ∈ db.activities := hb
        rw [countParticipants_append_one]
        by_cases hid : (⟨em, act.id⟩ : Participant).activity_id = b.id
        · have hact : act ∈ db.activities := List.mem_of_find?_eq_some hA
          have hba : b = act := hI b hb' act hact (Eq.symm hid)
          have hmax : act.max_participants ≠ 0 := hba ▸ hm
          have hlt : countParticipants db act.id < act.max_participants := by
            by_contra hge
            exact hg ⟨hmax, not_lt.mp hge⟩
          rw [if_pos hid, hba]
          omega
        · rw [if_neg hid]
          exact Nat.add_zero _ ▸ hC b hb' hm
    · have hst : (signup_for_activity db an em).2 = db := by
        simp [signup_for_activity, hA, hf]
      rw [hst]; exact hC

/-- Unregister preserves the capacity invariant. -/
theorem capacityInv_unregister (db : DB) (an em : String) (hC : CapacityInv db) :
    CapacityInv ((unregister_from_activity db an em).2) := by
  rcases hA : findActivity db an with _ | act
  · rw [unregister_of_unknown hA]; exact hC
  · rcases hf : db.participants.find? (fun q => q.activity_id == act.id && q.email == em)
      with _ | p
    · have hst : (unregister_from_activity db an em).2 = db := by
        simp [unregister_from_activity, hA, hf]
      rw [hst]; exact hC
    · rw [unregister_found_state hA hf]
      intro b hb hm
      exact le_trans (countParticipants_eraseP_le db _ b.id) (hC b hb hm)

/-- One operation preserves both invariants. -/
theorem inv_applyOp (db : DB) (op : Op) (hI : IdsInj db) (hC : CapacityInv db) :
    IdsInj (applyOp db op) ∧ CapacityInv (applyOp db op) := by
  cases op with
  | signup a e => exact ⟨idsInj_signup db a e hI, capacityInv_signup db a e hI hC⟩
  | unregister a e => exact ⟨idsInj_unregister db a e hI, capacityInv_unregister db a e hC⟩

/-- Any sequence of operations preserves both invariants. -/
theorem inv_applyOps (ops : List Op) (db : DB) (hI : IdsInj db) (hC : CapacityInv db) :
    IdsInj (applyOps db ops) ∧ CapacityInv (applyOps db ops) := by
  induction ops generalizing db with
  | nil => exact ⟨hI, hC⟩
  | cons op rest ih =>
    have h := inv_applyOp db op hI hC
    exact ih (applyOp db op) h.1 h.2

/-- The seeded state has injective activity ids. -/
theorem idsInj_seed : IdsInj (startup_event emptyDB) := by decide

/-- The seeded state satisfies the capacity invariant. -/
theorem capacityInv_seed : CapacityInv (startup_event emptyDB) := by decide

/-- After a fresh signup, unregistering the same pair succeeds and restores the
original state exactly. -/
theorem roundtrip_unregister_eq {db : DB} {an em : String} {act : Activity}
    (h1 : findActivity db an = some act)
    (h2 : ∀ p ∈ db.participants, ¬(p.activity_id = act.id ∧ p.email = em))
    (h3 : act.max_participants = 0 ∨ countParticipants db act.id < act.max_participants) :
    unregister_from_activity ((signup_for_activity db an em).2) an em =
      (.ok ("Unregistered " ++ em ++ " from " ++ an), db) := by
  rw [signup_of_success h1 h2 h3]
  have hA1 : findActivity
      { db with participants := db.participants ++ [⟨em, act.id⟩] } an = some act := h1
  have hnone := @find?_row_eq_none db.participants act.id em h2
  have hpred : (fun q : Participant => q.activity_id == act.id && q.email == em)
      (⟨em, act.id⟩ : Participant) = true := by simp
  have hfind1 : ({ db with participants := db.participants ++ [⟨em, act.id⟩] } : DB).participants.find?
      (fun q => q.activity_id == act.id && q.email == em) = some ⟨em, act.id⟩ := by
    show (db.participants ++ [(⟨em, act.id⟩ : Participant)]).find?
      (fun q => q.activity_id == act.id && q.email == em) = some (⟨em, act.id⟩ : Participant)
    rw [List.find?_append, hnone, Option.none_or]
    exact List.find?_cons_of_pos _ hpred
  rw [unregister_found_state hA1 hfind1]
  have hany : (db.participants.any
      (fun q => q.activity_id == act.id && q.email == em)) = false := by
    rw [List.any_eq_false]
    intro q hq
    simpa [Bool.and_eq_true, beq_iff_eq] using h2 q hq
  have hstate : ((db.participants ++ [(⟨em, act.id⟩ : Participant)]).eraseP
      (fun q => q.activity_id == act.id && q.email == em)) = db.participants := by
    rw [List.eraseP_append, if_neg (by simp [hany])]
    simp [List.eraseP_cons]
  show (Resp.ok ("Unregistered " ++ em ++ " from " ++ an),
    ({ db with participants := ((db.participants ++ [(⟨em, act.id⟩ : Participant)]).eraseP
      (fun q => q.activity_id == act.id && q.email == em)) } : DB)) =
    (Resp.ok ("Unregistered " ++ em ++ " from " ++ an), db)
  rw [hstate]

/-- An email with no matching row does not appear in the activity's email list. -/
theorem email_not_in_db {db : DB} {act : Activity} {em : String}
    (h2 : ∀ p ∈ db.participants, ¬(p.activity_id = act.id ∧ p.email = em)) :
    em ∉ participantEmails db act.id := by
  intro hm
  unfold participantEmails at hm
  rw [List.mem_map] at hm
  obtain ⟨p, hp, hpe⟩ := hm
  rw [List.mem_filter] at hp
  exact h2 p hp.1 ⟨by simpa [beq_iff_eq] using hp.2, hpe⟩

/-- The seed loader is a no-op on any state with at least one activity. -/
theorem startup_event_of_nonempty {db : DB} (h : db.activities ≠ []) :
    startup_event db = db := by
  unfold startup_event
  rw [if_neg]
  simpa [List.length_eq_zero] using h

/-! ## Claim theorems -/

/-- C1: Capacity invariant: for every activity whose max_participants is
nonzero, the number of Participant rows bound to that activity never exceeds
max_participants; every sequential signup and unregister operation preserves
this invariant starting from the seeded state. -/
theorem capacity_invariant_preserved (ops : List Op) :
    CapacityInv (applyOps (startup_event emptyDB) ops) :=
  (inv_applyOps ops (startup_event emptyDB) idsInj_seed capacityInv_seed).2

/-- C2: Duplicate-signup rejection: when a Participant row for
`(activity, email)` already exists, signup fails with HTTP 400 "Student is
already signed up" and the stored state is unchanged. -/
theorem signup_duplicate_rejected (db : DB) (an em : String) (act : Activity)
    (h1 : findActivity db an = some act)
    (h2 : ∃ p ∈ db.participants, p.activity_id = act.id ∧ p.email = em) :
    signup_for_activity db an em = (.err 400 "Student is already signed up", db) :=
  signup_of_duplicate h1 h2

/-- Witness for C2: in a database where "a@x" is registered for activity "A",
signing "a@x" up again returns the 400 duplicate error and leaves the state
unchanged. -/
theorem signup_duplicate_rejected_witness :
    signup_for_activity sampleDBFull "A" "a@x" =
      (.err 400 "Student is already signed up", sampleDBFull) :=
  signup_duplicate_rejected sampleDBFull "A" "a@x" sampleAct rfl
    ⟨⟨"a@x", 1⟩, by decide, by decide, by decide⟩

/-- C3: Capacity rejection and unlimited-when-zero: for an existing activity
with nonzero max_participants and count at least max_participants, signup of a
fresh email fails with 400 "Activity is at capacity" and leaves the state
unchanged; when max_participants is 0 the capacity check never fails and the
signup succeeds for any participant count. -/
theorem signup_capacity_behavior :
    (∀ (db : DB) (an em : String) (act : Activity),
      findActivity db an = some act →
      (∀ p ∈ db.participants, ¬(p.activity_id = act.id ∧ p.email = em)) →
      act.max_participants ≠ 0 →
      countParticipants db act.id ≥ act.max_participants →
      signup_for_activity db an em = (.err 400 "Activity is at capacity", db)) ∧
    (∀ (db : DB) (an em : String) (act : Activity),
      findActivity db an = some act →
      (∀ p ∈ db.participants, ¬(p.activity_id = act.id ∧ p.email = em)) →
      act.max_participants = 0 →
      signup_for_activity db an em =
        (.ok ("Signed up " ++ em ++ " for " ++ an),
         { db with participants := db.participants ++ [⟨em, act.id⟩] })) :=
  ⟨fun _ _ _ _ h1 h2 h3 h4 => signup_of_at_capacity h1 h2 h3 h4,
   fun _ _ _ _ h1 h2 h3 => signup_of_success h1 h2 (Or.inl h3)⟩

/-- Witness for C3: a full activity (2 of 2 seats) rejects a fresh email with
the capacity error; an unlimited activity (max 0) accepts a third signup. -/
theorem signup_capacity_behavior_witness :
    signup_for_activity sampleDBFull "A" "c@x" =
      (.err 400 "Activity is at capacity", sampleDBFull) ∧
    signup_for_activity sampleDBUnlimited "A" "c@x" =
      (.ok ("Signed up " ++ "c@x" ++ " for " ++ "A"),
       { sampleDBUnlimited with
          participants := sampleDBUnlimited.participants ++ [⟨"c@x", 1⟩] }) :=
  ⟨signup_capacity_behavior.1 sampleDBFull "A" "c@x" sampleAct rfl
      (by decide) (by decide) (by decide),
   signup_capacity_behavior.2 sampleDBUnlimited "A" "c@x" sampleActUnlimited rfl
      (by decide) rfl⟩

/-- C4: Unknown-activity signup: when no stored activity matches the name,
signup fails with HTTP 404 and leaves the stored state unchanged, for every
email value. -/
theorem signup_unknown_activity_404 (db : DB) (an em : String)
    (h : findActivity db an = none) :
    signup_for_activity db an em = (.err 404 "Activity not found", db) :=
  signup_of_unknown h

/-- Witness for C4: signup on the empty database returns 404 unchanged. -/
theorem signup_unknown_activity_404_witness :
    signup_for_activity emptyDB "Chess Club" "x@y" =
      (.err 404 "Activity not found", emptyDB) :=
  signup_unknown_activity_404 emptyDB "Chess Club" "x@y" rfl

/-- C5: Unregister preconditions: an unknown activity yields HTTP 404; an
existing activity with no matching Participant row yields HTTP 400 "Student is
not signed up for this activity"; in both cases the stored state is
unchanged. -/
theorem unregister_preconditions :
    (∀ (db : DB) (an em : String), findActivity db an = none →
      unregister_from_activity db an em = (.err 404 "Activity not found", db)) ∧
    (∀ (db : DB) (an em : String) (act : Activity),
      findActivity db an = some act →
      (∀ p ∈ db.participants, ¬(p.activity_id = act.id ∧ p.email = em)) →
      unregister_from_activity db an em =
        (.err 400 "Student is not signed up for this activity", db)) :=
  ⟨fun _ _ _ h => unregister_of_unknown h,
   fun _ _ _ _ h1 h2 => unregister_of_missing h1 h2⟩

/-- Witness for C5: unregister on the empty database returns 404; unregister
of an email never registered for an existing activity returns 400; both leave
the state unchanged. -/
theorem unregister_preconditions_witness :
    unregister_from_activity emptyDB "A" "x@y" =
      (.err 404 "Activity not found", emptyDB) ∧
    unregister_from_activity sampleDBOne "A" "zz@x" =
      (.err 400 "Student is not signed up for this activity", sampleDBOne) :=
  ⟨unregister_preconditions.1 emptyDB "A" "x@y" rfl,
   unregister_preconditions.2 sampleDBOne "A" "zz@x" sampleAct rfl (by decide)⟩

/-- C6: Round-trip: from a state where the activity exists, the email is not
registered and the activity is below capacity, a successful signup followed by
a successful unregister yields a state whose activity listing equals the
original listing, with the email absent from the activity's participant
list. -/
theorem signup_unregister_roundtrip (db : DB) (an em : String) (act : Activity)
    (h1 : findActivity db an = some act)
    (h2 : ∀ p ∈ db.participants, ¬(p.activity_id = act.id ∧ p.email = em))
    (h3 : act.max_participants = 0 ∨ countParticipants db act.id < act.max_participants) :
    (signup_for_activity db an em).1 = .ok ("Signed up " ++ em ++ " for " ++ an) ∧
    (unregister_from_activity ((signup_for_activity db an em).2) an em).1 =
      .ok ("Unregistered " ++ em ++ " from " ++ an) ∧
    get_activities ((unregister_from_activity ((signup_for_activity db an em).2) an em).2) =
      get_activities db ∧
    em ∉ participantEmails
      ((unregister_from_activity ((signup_for_activity db an em).2) an em).2) act.id := by
  have hu := roundtrip_unregister_eq h1 h2 h3
  refine ⟨by rw [signup_of_success h1 h2 h3], by rw [hu], by rw [hu], ?_⟩
  rw [hu]
  exact email_not_in_db h2

/-- Witness for C6: signing "b@x" up for activity "A" (one free seat) and
unregistering it restores the original listing, with "b@x" absent. -/
theorem signup_unregister_roundtrip_witness :
    (signup_for_activity sampleDBOne "A" "b@x").1 =
      .ok ("Signed up " ++ "b@x" ++ " for " ++ "A") ∧
    (unregister_from_activity ((signup_for_activity sampleDBOne "A" "b@x").2) "A" "b@x").1 =
      .ok ("Unregistered " ++ "b@x" ++ " from " ++ "A") ∧
    get_activities
      ((unregister_from_activity ((signup_for_activity sampleDBOne "A" "b@x").2) "A" "b@x").2) =
      get_activities sampleDBOne ∧
    "b@x" ∉ participantEmails
      ((unregister_from_activity ((signup_for_activity sampleDBOne "A" "b@x").2) "A" "b@x").2)
      sampleAct.id :=
  signup_unregister_roundtrip sampleDBOne "A" "b@x" sampleAct rfl
    (by decide) (Or.inr (by decide))

/-- C7: Seed idempotence: the startup loader inserts the catalog only when the
Activity table is empty; on any state already containing an activity it
changes nothing, so after a second startup "Chess Club" still has exactly its
2 seeded participants. -/
theorem startup_seed_idempotent :
    (∀ db : DB, db.activities ≠ [] → startup_event db = db) ∧
    (∃ act, findActivity (startup_event (startup_event emptyDB)) "Chess Club" = some act ∧
      countParticipants (startup_event (startup_event emptyDB)) act.id = 2) :=
  ⟨fun _ h => startup_event_of_nonempty h,
   ⟨⟨1, "Chess Club", "Learn strategies and compete in chess tournaments",
      "Fridays, 3:30 PM - 5:00 PM", 12⟩, by decide, by decide⟩⟩

/-- Witness for C7: running startup on the already-seeded state is the
identity. -/
theorem startup_seed_idempotent_witness :
    startup_event (startup_event emptyDB) = startup_event emptyDB :=
  startup_seed_idempotent.1 (startup_event emptyDB) (by decide)

/-- C8: Signup precondition order: an email already registered in a full
activity receives the 400 "already signed up" error rather than the capacity
error, and an unknown activity yields 404 for every email value, including the
empty string. -/
theorem signup_check_order :
    (∀ (db : DB) (an em : String) (act : Activity),
      findActivity db an = some act →
      (∃ p ∈ db.participants, p.activity_id = act.id ∧ p.email = em) →
      act.max_participants ≠ 0 →
      countParticipants db act.id ≥ act.max_participants →
      signup_for_activity db an em = (.err 400 "Student is already signed up", db)) ∧
    (∀ (db : DB) (an : String), findActivity db an = none →
      ∀ em : String, signup_for_activity db an em = (.err 404 "Activity not found", db)) :=
  ⟨fun _ _ _ _ h1 h2 _ _ => signup_of_duplicate h1 h2,
   fun _ _ h _ => signup_of_unknown h⟩

/-- Witness for C8: "a@x" is registered in the full activity "A" (2 of 2) and
receives the duplicate error, not the capacity error; an unknown activity with
an empty email yields 404. -/
theorem signup_check_order_witness :
    signup_for_activity sampleDBFull "A" "a@x" =
      (.err 400 "Student is already signed up", sampleDBFull) ∧
    signup_for_activity emptyDB "Nope" "" =
      (.err 404 "Activity not found", emptyDB) :=
  ⟨signup_check_order.1 sampleDBFull "A" "a@x" sampleAct rfl
      ⟨⟨"a@x", 1⟩, by decide, by decide, by decide⟩ (by decide) (by decide),
   signup_check_order.2 emptyDB "Nope" rfl ""⟩

/-- C9: Commit-time uniqueness remap and atomicity: when committing the
inserted Participant row raises an integrity violation, the handler rolls
back (returned state is the pre-insert state) and reports the HTTP 400
"already signed up" condition; any other persistence exception is rolled back
and re-raised. -/
theorem signup_commit_integrity_remap (db : DB) (an em : String) (aid : Nat) :
    signupFinish db an em aid .integrityError =
      (.err 400 "Student is already signed up or constraint violation", db) ∧
    signupFinish db an em aid .otherError = (.raised, db) :=
  ⟨rfl, rfl⟩

/-- C10 counterexample: the root endpoint's redirect status code is not 302
(Starlette's `RedirectResponse` defaults to 307). -/
theorem root_status_ne_302 : ¬((root emptyDB).1.1 = 302) := by decide

/-- C10 (amended): a GET request to "/" returns an HTTP redirect with status
code 307 whose target location is "/static/index.html", with no change to
stored state. -/
theorem root_redirect_307 (db : DB) : root db = ((307, "/static/index.html"), db) := rfl

end Mergington
